import Mathlib

/-!
Verification of the xero-auth privilege-escalation daemon
(crate xero-auth: protocol.rs, daemon.rs, client.rs).

The development embeds the message schema, the daemon connection loop,
the PTY-backed process executor and the client library as executable
Lean functions, and proves the specified properties about them.
-/

/-- Request message, from protocol.rs (enum ClientMessage).
Note: the Execute variant carries program, args and working_dir only;
there is no env field in protocol.rs. -/
inductive ClientMessage where
  | Execute (program : String) (args : List String) (workingDir : Option String)
  | Ping
  | Shutdown
deriving DecidableEq, Repr

/-- Response message, from protocol.rs (enum DaemonMessage). -/
inductive DaemonMessage where
  | Output (text : String)
  | Error (text : String)
  | Completed (exitCode : Int)
  | ErrorMessage (text : String)
  | Pong
  | ShutdownAck
deriving DecidableEq, Repr

/-- libc WTERMSIG: status & 0x7f. -/
def wtermsig (status : Nat) : Nat := status % 128

/-- libc WIFEXITED: (status & 0x7f) == 0. -/
def wifexited (status : Nat) : Bool := status % 128 == 0

/-- libc WEXITSTATUS: (status >> 8) & 0xff. -/
def wexitstatus (status : Nat) : Nat := (status / 256) % 256

/-- Interpretation of a Nat as a signed 8-bit value (the "as i8" cast). -/
def toI8 (n : Nat) : Int :=
  if n % 256 < 128 then ((n % 256 : Nat) : Int) else ((n % 256 : Nat) : Int) - 256

/-- libc WIFSIGNALED: ((status & 0x7f) + 1) as i8 >= 2. -/
def wifsignaled (status : Nat) : Bool := decide (2 ≤ toI8 (status % 128 + 1))

/-- Exit-code computation of read_pty_output (daemon.rs lines 357-375):
waitpid result decoded with WIFEXITED / WIFSIGNALED, -1 otherwise;
a failed waitpid (modelled as none) also yields -1. -/
def decodeWaitStatus (waitResult : Option Nat) : Int :=
  match waitResult with
  | none => -1
  | some status =>
    if wifexited status then (wexitstatus status : Int)
    else if wifsignaled status then 128 + (wtermsig status : Int)
    else -1

/-- Environment of one Execute dispatch: whether Fork::from_ptmx succeeds,
the byte content readable from the pty master, and the waitpid status. -/
structure ExecOracle where
  ptyOk : Bool
  ptyContent : String
  waitStatus : Option Nat
deriving DecidableEq, Repr

/-- BufRead::read_line segmentation: each returned line includes its
terminating newline; a final unterminated segment is returned as-is;
Ok(0) at end of stream stops the loop. -/
def readLinesAux : List Char → List Char → List (List Char)
  | [], [] => []
  | [], acc => [acc.reverse]
  | c :: rest, acc =>
    if c = '\n' then (acc.reverse ++ ['\n']) :: readLinesAux rest []
    else readLinesAux rest (c :: acc)

/-- The sequence of lines the blocking reader task of read_pty_output
obtains from the pty master. -/
def readLines (s : String) : List String :=
  (readLinesAux s.data []).map List.asString

/-- read_pty_output (daemon.rs lines 299-378): every line read from the
pty master is forwarded as an Output message, then the child is reaped
and its status decoded. -/
def readPtyOutput (oracle : ExecOracle) : List DaemonMessage × Int :=
  ((readLines oracle.ptyContent).map DaemonMessage.Output,
    decodeWaitStatus oracle.waitStatus)

/-- execute_command (daemon.rs lines 266-297), parent side, as the list of
messages written on the connection: on pty allocation failure the function
returns an error (the map_err + question-mark on Fork::from_ptmx) without
writing anything; otherwise the streamed Output messages followed by the
final Completed message. -/
def executeCommand (oracle : ExecOracle) : Except String (List DaemonMessage) :=
  if oracle.ptyOk then
    let streamed := readPtyOutput oracle
    .ok (streamed.1 ++ [DaemonMessage.Completed streamed.2])
  else
    .error "Failed to create PTY"

/-- The exec image prepared in the child branch of execute_command
(daemon.rs lines 277-289): chdir to the working directory if given, then
Command::new(program).args(args).exec().  No environment manipulation
occurs, so the override list applied on top of the inherited environment
is empty. -/
structure ChildExecImage where
  chdirTo : Option String
  program : String
  args : List String
  envOverrides : List String
deriving DecidableEq, Repr

/-- Child branch of execute_command (daemon.rs lines 277-289). -/
def childExecImage (program : String) (args : List String)
    (workingDir : Option String) : ChildExecImage :=
  { chdirTo := workingDir
    program := program
    args := args
    envOverrides := [] }

/-- The Execute request record as the client library constructs it
(client.rs lines 58-63): it does carry an env list. -/
structure ExecuteRequest where
  program : String
  args : List String
  env : List String
  workingDir : Option String
deriving DecidableEq, Repr

/-- client.rs lines 58-63: the message built by Client::execute. -/
def mkExecuteRequest (program : String) (args : List String)
    (env : List String) (workingDir : Option String) : ExecuteRequest :=
  { program := program, args := args, env := env, workingDir := workingDir }

/-- One iteration of the handle_client loop (daemon.rs lines 193-244):
a complete line was read; the fields record what the surrounding world
looks like at that iteration. externShutdown: whether some other task
(parent monitor, signal handler, another connection) has set the global
shutdown flag by the time this connection checks it; parentAlive: the
is_process_running answer for the monitored parent at this iteration;
parsed: the serde_json parse result of the line; writeOk: whether a
direct send on the socket succeeds at this iteration; exec: the pty
environment used if an Execute is dispatched here. -/
structure Step where
  externShutdown : Bool
  parentAlive : Bool
  parsed : Option ClientMessage
  writeOk : Bool
  exec : ExecOracle
deriving DecidableEq, Repr

/-- How the handle_client loop ended. -/
inductive TermReason where
  | eofEnd
  | sawShutdownFlag
  | parentDead
  | shutdownRequested
  | transportError
  | dispatchError (msg : String)
deriving DecidableEq, Repr

/-- Observable outcome of one connection: the messages written on it, the
Execute requests actually handed to the process executor, the final value
of the shutdown flag as left by this connection, and why the loop ended. -/
structure ConnResult where
  trace : List DaemonMessage
  dispatched : List ClientMessage
  flag : Bool
  term : TermReason
deriving DecidableEq, Repr

/-- handle_client (daemon.rs lines 183-247).  Per line read: first the
shutdown flag is checked (break without reply if set), then parent
liveness (reply ErrorMessage, set flag, break if dead), then the line is
parsed (reply ErrorMessage and continue on failure), then the message is
dispatched (Ping replies Pong; Shutdown replies ShutdownAck, sets the
flag and breaks; Execute runs execute_command, whose error terminates
the loop via the question-mark).  A failed direct send propagates as a
transport error.  End of the step list is end-of-stream (read_line
returning 0 bytes). -/
def handleClient (flag : Bool) (parentMonitored : Bool) :
    List Step → ConnResult
  | [] => ⟨[], [], flag, .eofEnd⟩
  | s :: rest =>
    let flag1 := flag || s.externShutdown
    if flag1 then ⟨[], [], flag1, .sawShutdownFlag⟩
    else if parentMonitored && !s.parentAlive then
      if s.writeOk then
        ⟨[.ErrorMessage "Parent process is no longer running"], [],
          true, .parentDead⟩
      else
        ⟨[.ErrorMessage "Parent process is no longer running"], [],
          flag1, .transportError⟩
    else
      match s.parsed with
      | none =>
        if s.writeOk then
          let r := handleClient flag1 parentMonitored rest
          ⟨.ErrorMessage "Failed to parse message" :: r.trace,
            r.dispatched, r.flag, r.term⟩
        else
          ⟨[.ErrorMessage "Failed to parse message"], [], flag1,
            .transportError⟩
      | some .Ping =>
        if s.writeOk then
          let r := handleClient flag1 parentMonitored rest
          ⟨.Pong :: r.trace, r.dispatched, r.flag, r.term⟩
        else ⟨[.Pong], [], flag1, .transportError⟩
      | some .Shutdown =>
        if s.writeOk then ⟨[.ShutdownAck], [], true, .shutdownRequested⟩
        else ⟨[.ShutdownAck], [], flag1, .transportError⟩
      | some (.Execute p a wd) =>
        match executeCommand s.exec with
        | .ok msgs =>
          let r := handleClient flag1 parentMonitored rest
          ⟨msgs ++ r.trace, .Execute p a wd :: r.dispatched, r.flag, r.term⟩
        | .error e => ⟨[], [.Execute p a wd], flag1, .dispatchError e⟩

/-- Result of one Client::execute call: the arguments passed to the
on_output callback in order, the arguments passed to the on_error
callback in order, and the returned value. -/
structure ClientExecResult where
  outputCalls : List String
  errorCalls : List String
  result : Except String Int
deriving Repr

/-- Response-reading loop of Client::execute (client.rs lines 68-92),
over the decoded response stream; the end of the list is a clean
end-of-stream (read_message returning None). -/
def execLoop : List DaemonMessage → ClientExecResult
  | [] => ⟨[], [], .ok (-1)⟩
  | .Output t :: rest =>
    let r := execLoop rest
    ⟨t :: r.outputCalls, r.errorCalls, r.result⟩
  | .Error t :: rest =>
    let r := execLoop rest
    ⟨r.outputCalls, t :: r.errorCalls, r.result⟩
  | .Completed c :: _ => ⟨[], [], .ok c⟩
  | .ErrorMessage e :: _ => ⟨[], [], .error ("Daemon error: " ++ e)⟩
  | .Pong :: rest => execLoop rest
  | .ShutdownAck :: rest => execLoop rest

/-- Client::execute (client.rs lines 42-93): the requests written on the
socket, and the outcome of the response loop. -/
def clientExecute (program : String) (args : List String)
    (env : List String) (workingDir : Option String)
    (stream : List DaemonMessage) : List ExecuteRequest × ClientExecResult :=
  ([mkExecuteRequest program args env workingDir], execLoop stream)

/-- Client::shutdown (client.rs lines 96-109): reads one response; only
ShutdownAck is success, any other message or a closed stream (None) is
an error. -/
def clientShutdown : Option DaemonMessage → Except String Unit
  | some .ShutdownAck => .ok ()
  | some _ => .error "Unexpected response to shutdown"
  | none => .error "Connection closed before shutdown acknowledgment"

/-- Whether a response ends the Client::execute read loop. -/
def isTerminalResponse : DaemonMessage → Bool
  | .Completed _ => true
  | .ErrorMessage _ => true
  | _ => false

/-- Payload selector for Output messages. -/
def outputPayload : DaemonMessage → Option String
  | .Output t => some t
  | _ => none

/-- Payload selector for Error messages. -/
def errorPayload : DaemonMessage → Option String
  | .Error t => some t
  | _ => none

/-- The claimed behaviour of the client execute loop, stated in the
spec's words: callbacks fire once per Output / Error received before the
first terminal response; the loop returns the first Completed code, or a
failure on ErrorMessage, or -1 on clean end-of-stream. -/
def specExecOutcome (stream : List DaemonMessage) : ClientExecResult :=
  let pre := stream.takeWhile (fun m => !isTerminalResponse m)
  { outputCalls := pre.filterMap outputPayload
    errorCalls := pre.filterMap errorPayload
    result :=
      match (stream.dropWhile (fun m => !isTerminalResponse m)).head? with
      | some (.Completed c) => .ok c
      | some (.ErrorMessage e) => .error ("Daemon error: " ++ e)
      | _ => .ok (-1) }

/-- Result of set_socket_permissions: the chmod mode applied, the group
the socket was chowned to (none when no chown happened), and whether the
degraded-permissions warning was logged. -/
structure SocketPerm where
  mode : Nat
  chownedGid : Option Nat
  warned : Bool
deriving DecidableEq, Repr

/-- OS facts set_socket_permissions depends on: getpwuid(uid) as the
primary gid of uid (none when the lookup fails), and whether the
chown call succeeds. -/
structure PermEnv where
  groupOf : Nat → Option Nat
  chownOk : Bool

/-- set_socket_permissions (daemon.rs lines 110-145). -/
def setSocketPermissions (env : PermEnv) (effectiveUid : Option Nat) :
    SocketPerm :=
  match effectiveUid with
  | none => ⟨0o600, none, false⟩
  | some uid =>
    match env.groupOf uid with
    | some gid =>
      if env.chownOk then ⟨0o660, some gid, false⟩
      else ⟨0o666, none, true⟩
    | none => ⟨0o666, none, true⟩

/-- Claim C1: the Execute request is claimed to carry env overrides that
the daemon merges into the child environment.  The client library indeed
builds the request with an env list (client.rs lines 58-63), but
protocol.rs's Execute variant has no env field and the child branch of
execute_command execs the program without applying any override: the
override list of the prepared exec image is empty. -/
theorem daemon_drops_env_overrides :
    (mkExecuteRequest "env" [] ["FOO=bar"] none).env = ["FOO=bar"]
  ∧ (childExecImage "env" [] none).envOverrides = [] :=
  ⟨rfl, rfl⟩

/-- Claim C2: on every successfully dispatched Execute (pty allocation
succeeded), execute_command writes a final Completed message carrying the
decoded wait status, it is the last message of the exchange, and every
message before it is an Output or Error line; this also holds when the
child produced no output. -/
theorem execute_completed_is_last (oracle : ExecOracle)
    (h : oracle.ptyOk = true) :
    ∃ t, executeCommand oracle = .ok t ∧
      t.getLast? = some (.Completed (decodeWaitStatus oracle.waitStatus)) ∧
      ∀ m ∈ t.dropLast,
        ∃ s, m = DaemonMessage.Output s ∨ m = DaemonMessage.Error s := by
  refine ⟨(readLines oracle.ptyContent).map DaemonMessage.Output ++
      [DaemonMessage.Completed (decodeWaitStatus oracle.waitStatus)],
    ?_, ?_, ?_⟩
  · simp [executeCommand, readPtyOutput, h]
  · rw [List.getLast?_concat]
  · rw [List.dropLast_concat]
    intro m hm
    rcases List.mem_map.mp hm with ⟨s, _, hs⟩
    exact ⟨s, Or.inl hs.symm⟩

/-- Witness for execute_completed_is_last: a dispatch whose child wrote
nothing and exited with status 0. -/
theorem execute_completed_is_last_witness :
    (⟨true, "", some 0⟩ : ExecOracle).ptyOk = true ∧
    ∃ t, executeCommand ⟨true, "", some 0⟩ = .ok t ∧
      t.getLast? = some (.Completed (decodeWaitStatus (some 0))) ∧
      ∀ m ∈ t.dropLast,
        ∃ s, m = DaemonMessage.Output s ∨ m = DaemonMessage.Error s :=
  ⟨rfl, execute_completed_is_last ⟨true, "", some 0⟩ rfl⟩

/-- Claim C3: exit-status translation of read_pty_output: a normal exit
yields the child's own code, termination by signal N yields 128 + N
(SIGKILL, signal 9, yields 137), and an unknown or unreadable status,
including a failed waitpid, yields -1. -/
theorem exit_status_translation :
    (∀ c : Nat, c ≤ 255 → decodeWaitStatus (some (c * 256)) = (c : Int))
  ∧ (∀ n : Nat, 1 ≤ n → n ≤ 64 → decodeWaitStatus (some n) = 128 + (n : Int))
  ∧ decodeWaitStatus (some 9) = 137
  ∧ decodeWaitStatus none = -1
  ∧ (∀ s : Nat, wifexited s = false → wifsignaled s = false →
      decodeWaitStatus (some s) = -1) := by
  refine ⟨?_, ?_, by decide, rfl, ?_⟩
  · intro c hc
    have h1 : c * 256 % 128 = 0 := by omega
    have h2 : c * 256 / 256 % 256 = c := by omega
    simp [decodeWaitStatus, wifexited, wexitstatus, h1, h2]
    omega
  · intro n h1 h64
    have hm : n % 128 = n := Nat.mod_eq_of_lt (by omega)
    have hs : (n + 1) % 256 = n + 1 := Nat.mod_eq_of_lt (by omega)
    have hex : wifexited n = false := by
      simp [wifexited, hm]; omega
    have hsg : wifsignaled n = true := by
      simp only [wifsignaled, toI8, hm, hs, decide_eq_true_eq]
      rw [if_pos (by omega : n + 1 < 128)]
      omega
    simp [decodeWaitStatus, hex, hsg, wtermsig, hm]
  · intro s hex hsg
    simp [decodeWaitStatus, hex, hsg]

/-- Witness for exit_status_translation: a normal exit with code 7, a
SIGTERM (15) termination, and the stopped-status word 0x057f which is
neither an exit nor a signal termination. -/
theorem exit_status_translation_witness :
    decodeWaitStatus (some (7 * 256)) = 7
  ∧ decodeWaitStatus (some 15) = 128 + 15
  ∧ decodeWaitStatus (some 1407) = -1 :=
  ⟨exit_status_translation.1 7 (by decide),
   exit_status_translation.2.1 15 (by decide) (by decide),
   exit_status_translation.2.2.2.2 1407 (by decide) (by decide)⟩

/-- Refutation for claim C4: a well-formed Execute request on which pty
allocation fails (no shutdown, no parent monitoring, working transport).
The connection trace is empty — no ErrorMessage is ever written to the
requesting client; execute_command's error propagates through the
question-mark operator in handle_client and the connection simply
terminates with that error, which run_daemon only logs. -/
theorem pty_failure_sends_no_error_message :
    handleClient false false
      [⟨false, true, some (.Execute "pacman" ["-Syu"] none), true,
        ⟨false, "", none⟩⟩] =
    ⟨[], [.Execute "pacman" ["-Syu"] none], false,
      .dispatchError "Failed to create PTY"⟩ :=
  rfl

/-- Claim C4 (amended): on every Execute request on which pty allocation
fails, the daemon aborts the request without sending any message at all:
execute_command returns an error that terminates the connection loop
(the failure is logged by the accept loop, not reported to the client). -/
theorem pty_failure_terminates_connection (s : Step) (rest : List Step)
    (pm : Bool) (p : String) (a : List String) (wd : Option String)
    (h1 : s.externShutdown = false)
    (h2 : (pm && !s.parentAlive) = false)
    (h3 : s.parsed = some (.Execute p a wd))
    (h4 : s.exec.ptyOk = false) :
    handleClient false pm (s :: rest) =
      ⟨[], [.Execute p a wd], false, .dispatchError "Failed to create PTY"⟩ := by
  simp [handleClient, h1, h2, h3, executeCommand, h4]

/-- Witness for pty_failure_terminates_connection. -/
theorem pty_failure_terminates_connection_witness :
    handleClient false true
      [⟨false, true, some (.Execute "bash" ["-c", "ls"] (some "/tmp")), true,
        ⟨false, "ignored", some 0⟩⟩] =
      ⟨[], [.Execute "bash" ["-c", "ls"] (some "/tmp")], false,
        .dispatchError "Failed to create PTY"⟩ :=
  pty_failure_terminates_connection
    ⟨false, true, some (.Execute "bash" ["-c", "ls"] (some "/tmp")), true,
      ⟨false, "ignored", some 0⟩⟩
    [] true "bash" ["-c", "ls"] (some "/tmp") rfl rfl rfl rfl

/-- Claim C5: a line that does not parse as a ClientMessage is answered
with exactly one ErrorMessage, after which the loop continues exactly as
it would on the remaining input (so a subsequent well-formed message is
dispatched normally); only a failure of the transport write itself
terminates the connection. -/
theorem bad_line_error_then_continue (s : Step) (rest : List Step) (pm : Bool)
    (h1 : s.externShutdown = false)
    (h2 : (pm && !s.parentAlive) = false)
    (h3 : s.parsed = none) :
    (s.writeOk = true →
      handleClient false pm (s :: rest) =
        ⟨.ErrorMessage "Failed to parse message" ::
            (handleClient false pm rest).trace,
          (handleClient false pm rest).dispatched,
          (handleClient false pm rest).flag,
          (handleClient false pm rest).term⟩)
  ∧ (s.writeOk = false →
      handleClient false pm (s :: rest) =
        ⟨[.ErrorMessage "Failed to parse message"], [], false,
          .transportError⟩) := by
  constructor <;> intro hw <;> simp [handleClient, h1, h2, h3, hw]

/-- Witness for bad_line_error_then_continue: one malformed line followed
by a well-formed Execute that is dispatched normally. -/
theorem bad_line_error_then_continue_witness :
    handleClient false false
      [⟨false, true, none, true, ⟨true, "", some 0⟩⟩,
       ⟨false, true, some (.Execute "echo" ["hi"] none), true,
         ⟨true, "hi\n", some 0⟩⟩] =
      ⟨[.ErrorMessage "Failed to parse message", .Output "hi\n", .Completed 0],
        [.Execute "echo" ["hi"] none], false, .eofEnd⟩ := by
  have h := (bad_line_error_then_continue
    ⟨false, true, none, true, ⟨true, "", some 0⟩⟩
    [⟨false, true, some (.Execute "echo" ["hi"] none), true,
      ⟨true, "hi\n", some 0⟩⟩] false rfl rfl rfl).1 rfl
  rw [h]
  rfl

/-- Claim C6: after binding, the socket permission assignment is a total
three-way case split on the effective uid: none supplied → mode 0600;
uid supplied with resolvable primary group and successful chown → group
changed to that uid's group and mode 0660; uid supplied but group lookup
failing, or the chown call failing → fallback mode 0666 with a warning
(a non-fatal degraded path). -/
theorem socket_permission_cases (env : PermEnv) :
    setSocketPermissions env none = ⟨0o600, none, false⟩
  ∧ (∀ uid gid, env.groupOf uid = some gid → env.chownOk = true →
      setSocketPermissions env (some uid) = ⟨0o660, some gid, false⟩)
  ∧ (∀ uid gid, env.groupOf uid = some gid → env.chownOk = false →
      setSocketPermissions env (some uid) = ⟨0o666, none, true⟩)
  ∧ (∀ uid, env.groupOf uid = none →
      setSocketPermissions env (some uid) = ⟨0o666, none, true⟩) := by
  refine ⟨rfl, ?_, ?_, ?_⟩
  · intro uid gid h1 h2
    simp [setSocketPermissions, h1, h2]
  · intro uid gid h1 h2
    simp [setSocketPermissions, h1, h2]
  · intro uid h1
    simp [setSocketPermissions, h1]

/-- Witness for socket_permission_cases, with a concrete OS environment
resolving uid 1000 to gid 984 and a succeeding chown. -/
theorem socket_permission_cases_witness :
    setSocketPermissions
        ⟨fun u => if u = 1000 then some 984 else none, true⟩ none =
      ⟨0o600, none, false⟩
  ∧ setSocketPermissions
        ⟨fun u => if u = 1000 then some 984 else none, true⟩ (some 1000) =
      ⟨0o660, some 984, false⟩
  ∧ setSocketPermissions
        ⟨fun u => if u = 1000 then some 984 else none, true⟩ (some 0) =
      ⟨0o666, none, true⟩ :=
  ⟨(socket_permission_cases
      ⟨fun u => if u = 1000 then some 984 else none, true⟩).1,
   (socket_permission_cases
      ⟨fun u => if u = 1000 then some 984 else none, true⟩).2.1
      1000 984 rfl rfl,
   (socket_permission_cases
      ⟨fun u => if u = 1000 then some 984 else none, true⟩).2.2.2 0 rfl⟩

/-- Refutation for claim C7: a request read after the parent process has
died is not always answered with an ErrorMessage.  If the parent-monitor
task already set the global shutdown flag (it polls every 2 seconds and
sets the flag on parent death), the connection loop breaks at the
shutdown-flag check — before the synchronous liveness check — and closes
the connection with no reply at all.  Concretely: parent monitored and
dead, flag already set, a valid Execute line read; the trace is empty. -/
theorem parent_dead_after_flag_no_reply :
    handleClient false true
      [⟨true, false, some (.Execute "flatpak" ["update"] none), true,
        ⟨true, "", some 0⟩⟩] =
      ⟨[], [], true, .sawShutdownFlag⟩ :=
  rfl

/-- Claim C7 (amended): when a parent pid is monitored, liveness is
re-checked on every incoming message before dispatch, and a request read
after the parent has died is never dispatched to the process executor;
it is answered with an ErrorMessage provided the global shutdown flag
was not already set when the line was read (if it was, the connection
closes without any response). -/
theorem parent_dead_rejected_before_dispatch (s : Step) (rest : List Step)
    (h1 : s.externShutdown = false)
    (h2 : s.parentAlive = false) :
    (handleClient false true (s :: rest)).trace =
      [.ErrorMessage "Parent process is no longer running"]
  ∧ (handleClient false true (s :: rest)).dispatched = [] := by
  cases hw : s.writeOk <;> simp [handleClient, h1, h2, hw]

/-- Witness for parent_dead_rejected_before_dispatch: a valid Execute
request read while the monitored parent is dead. -/
theorem parent_dead_rejected_before_dispatch_witness :
    (handleClient false true
      [⟨false, false, some (.Execute "true" [] none), true,
        ⟨true, "", some 0⟩⟩]).trace =
      [.ErrorMessage "Parent process is no longer running"]
  ∧ (handleClient false true
      [⟨false, false, some (.Execute "true" [] none), true,
        ⟨true, "", some 0⟩⟩]).dispatched = [] :=
  parent_dead_rejected_before_dispatch
    ⟨false, false, some (.Execute "true" [] none), true, ⟨true, "", some 0⟩⟩
    [] rfl rfl

/-- Claim C8: Client::execute writes exactly one Execute request, and its
response loop invokes the output callback once per Output message and the
error callback once per Error message read before the first terminal
response, then returns the first Completed code, or fails on an
ErrorMessage, or returns -1 on clean end-of-stream. -/
theorem client_execute_characterization (program : String)
    (args : List String) (env : List String) (workingDir : Option String)
    (stream : List DaemonMessage) :
    clientExecute program args env workingDir stream =
      ([mkExecuteRequest program args env workingDir],
        specExecOutcome stream) := by
  have key : ∀ st : List DaemonMessage, execLoop st = specExecOutcome st := by
    intro st
    induction st with
    | nil => rfl
    | cons m rest ih =>
      cases m <;>
        simp [execLoop, specExecOutcome, List.takeWhile_cons,
          List.dropWhile_cons, isTerminalResponse, outputPayload,
          errorPayload, ih]
  simp [clientExecute, key]

/-- Claim C9: a Shutdown request (read with the flag clear, parent alive,
working transport) is answered with exactly one ShutdownAck, after which
the daemon sets the shutdown flag and closes the connection; and the
client library's shutdown() succeeds exactly when the response it reads
is a ShutdownAck — any other response, or a closed stream, is an error. -/
theorem shutdown_ack_exchange (s : Step) (rest : List Step) (pm : Bool)
    (h1 : s.externShutdown = false)
    (h2 : (pm && !s.parentAlive) = false)
    (h3 : s.parsed = some .Shutdown)
    (h4 : s.writeOk = true) :
    handleClient false pm (s :: rest) =
      ⟨[.ShutdownAck], [], true, .shutdownRequested⟩
  ∧ (∀ resp : Option DaemonMessage,
      clientShutdown resp = .ok () ↔ resp = some .ShutdownAck) := by
  constructor
  · simp [handleClient, h1, h2, h3, h4]
  · intro resp
    cases resp with
    | none => simp [clientShutdown]
    | some m => cases m <;> simp [clientShutdown]

/-- Witness for shutdown_ack_exchange: a Shutdown line on a quiet
connection, and the client observing the ShutdownAck. -/
theorem shutdown_ack_exchange_witness :
    handleClient false false
      [⟨false, true, some .Shutdown, true, ⟨true, "", some 0⟩⟩] =
      ⟨[.ShutdownAck], [], true, .shutdownRequested⟩
  ∧ (clientShutdown (some .ShutdownAck) = .ok () ↔
      (some DaemonMessage.ShutdownAck : Option DaemonMessage) =
        some .ShutdownAck) :=
  ⟨(shutdown_ack_exchange
      ⟨false, true, some .Shutdown, true, ⟨true, "", some 0⟩⟩
      [] false rfl rfl rfl rfl).1,
   (shutdown_ack_exchange
      ⟨false, true, some .Shutdown, true, ⟨true, "", some 0⟩⟩
      [] false rfl rfl rfl rfl).2 (some .ShutdownAck)⟩

/-- Claim C10: if the global shutdown flag is already set when a complete
request line has been read (whether set by this connection earlier or by
any other task), the connection loop breaks immediately: no response of
any kind is written for that request and nothing is dispatched. -/
theorem flag_set_closes_without_reply (flag : Bool) (pm : Bool) (s : Step)
    (rest : List Step) (h : (flag || s.externShutdown) = true) :
    handleClient flag pm (s :: rest) = ⟨[], [], true, .sawShutdownFlag⟩ := by
  simp [handleClient, h]

/-- Witness for flag_set_closes_without_reply: a valid Ping read after
the signal handler set the flag; the connection closes silently. -/
theorem flag_set_closes_without_reply_witness :
    handleClient true false
      [⟨false, true, some .Ping, true, ⟨true, "", some 0⟩⟩] =
      ⟨[], [], true, .sawShutdownFlag⟩ :=
  flag_set_closes_without_reply true false
    ⟨false, true, some .Ping, true, ⟨true, "", some 0⟩⟩ [] rfl
